import Mathlib

/-!
Shallow embedding of the Vortex mod-deployment code: the elevated link
worker (the doFS retry wrapper and the link-file and remove-link
handlers), the staging-tag validator, the purge error handling used
during activator migration, the remove-mod orchestration and the
file-validation helper.  Every definition is translated from the
TypeScript source; the theorems settle the specification claims about
them.
-/

namespace Vortex

/-! ## Link worker (remoteCode in the elevated worker source) -/

/-- A filesystem error as surfaced by fs-extra: an OS error code plus a
message. -/
structure FSError where
  code : String
  message : String
  deriving DecidableEq, Repr

/-- Transient error codes that the worker retries, from the source:
RETRY_ERRORS = Set(EPERM, EBUSY, EIO, EBADF, UNKNOWN). -/
def RETRY_ERRORS : List String := ["EPERM", "EBUSY", "EIO", "EBADF", "UNKNOWN"]

/-- The doFS retry wrapper.  The operation is modelled as a function from
the attempt index to its settled result, so successive attempts may
differ.  The returned triple is the settled result, the number of
attempts actually made, and the total delay in milliseconds spent
between attempts (the source sleeps 100 ms before every retry).
Mirrors: op().catch(err => RETRY_ERRORS.has(err.code) and tries > 0 ?
delayed(100).then(retry with tries - 1) : reject err), with tries
starting at 5. -/
def doFS (op : Nat → Except FSError α) : Nat → Nat → Except FSError α × Nat × Nat
  | tries, attempt =>
    match op attempt, tries with
    | .ok v, _ => (.ok v, 1, 0)
    | .error err, t + 1 =>
      if RETRY_ERRORS.contains err.code then
        let r := doFS op t (attempt + 1)
        (r.1, r.2.1 + 1, r.2.2 + 100)
      else (.error err, 1, 0)
    | .error err, 0 => (.error err, 1, 0)

/-- Messages the worker emits over the ipc channel. -/
inductive Emit
  | log (level : String) (message : String)
  | completed (err : Option FSError) (num : Nat)
  | report (payload : String)
  deriving DecidableEq, Repr

/-- Recogniser for completed responses, used to count them. -/
def Emit.isCompleted : Emit → Bool
  | .completed _ _ => true
  | _ => false

/-- Kinds of directory entry distinguished by lstat in the remove-link
handler. -/
inductive FSEntry
  | file
  | dir
  | symlink
  deriving DecidableEq, Repr

/-- A directory tree modelled as an association list from path to entry
kind. -/
abbrev Fs := List (String × FSEntry)

/-- Look a path up in the filesystem model. -/
def lookupFs (fs : Fs) (p : String) : Option FSEntry :=
  (fs.find? (fun q => q.1 == p)).map (fun q => q.2)

/-- Remove a path from the filesystem model (fs.remove on an existing
entry succeeds). -/
def fsRemoveEntry (fs : Fs) (p : String) : Fs :=
  fs.filter (fun q => q.1 != p)

/-- lstat: report the entry kind at a path, or fail with ENOENT. -/
def lstat (fs : Fs) (p : String) : Except FSError FSEntry :=
  match lookupFs fs p with
  | some k => .ok k
  | none => .error ⟨"ENOENT", "no such file or directory"⟩

/-- The remove-link handler: doFS(lstat destination); if the entry is a
symbolic link, doFS(remove destination); emit completed with err null,
or completed carrying the error if any step failed.  Returns the new
filesystem and the emitted messages. -/
def removeLink (fs : Fs) (destination : String) (num : Nat) : Fs × List Emit :=
  match (doFS (fun _ => lstat fs destination) 5 0).1 with
  | .error e => (fs, [Emit.completed (some e) num])
  | .ok stats =>
    if stats = FSEntry.symlink then
      match (doFS (fun _ => (Except.ok (fsRemoveEntry fs destination) : Except FSError Fs)) 5 0).1 with
      | .ok fs2 => (fs2, [Emit.completed none num])
      | .error e => (fs, [Emit.completed (some e) num])
    else
      (fs, [Emit.completed none num])

/-- Primitive filesystem operations performed by the link-file handler,
in the order the source can reach them. -/
inductive Op
  | ensureDir
  | writeTag
  | removeDest
  | symlinkOp
  deriving DecidableEq, Repr

/-- The settled (post doFS) results of each primitive step the link-file
handler may run.  ensureDir resolves with the created directory or null
when the directory already existed; remove0 is the initial remove of an
already existing destination; removeStale and symlink2 are only reached
on an EEXIST failure of the first symlink attempt. -/
structure LinkOutcomes where
  ensureDir : Except FSError (Option String)
  writeTag : Except FSError Unit
  remove0 : Except FSError Unit
  symlink1 : Except FSError Unit
  removeStale : Except FSError Unit
  symlink2 : Except FSError Unit

/-- Emissions of the terminal error path of link-file: report
not-supported for EISDIR, otherwise an error log, then completed
carrying the error. -/
def terminalEmits (e : FSError) (num : Nat) : List Emit :=
  (if e.code = "EISDIR" then [Emit.report "not-supported"]
   else [Emit.log "error" "failed to install symlink"]) ++ [Emit.completed (some e) num]

/-- Emissions of the success path of link-file. -/
def successEmits (num : Nat) : List Emit :=
  [Emit.log "debug" "installed", Emit.completed none num]

/-- First phase of link-file, after ensureDir resolved with created: if
a directory was created, write the ownership tag into it; otherwise
remove a possibly existing destination, tolerating ENOENT.  Returns the
primitive operations run and the settled result of the phase. -/
def linkFilePrep (o : LinkOutcomes) (created : Option String) :
    List Op × Except FSError Unit :=
  match created with
  | some _ => ([Op.ensureDir, Op.writeTag], o.writeTag)
  | none =>
    ([Op.ensureDir, Op.removeDest],
     match o.remove0 with
     | .error e => if e.code = "ENOENT" then .ok () else .error e
     | .ok _ => .ok ())

/-- Second phase of link-file: symlink; on a failure whose code is not
EEXIST reject; on EEXIST remove the stale destination and symlink once
more; emit the success or terminal emissions. -/
def linkFileSymlinkPhase (o : LinkOutcomes) (num : Nat) (ops1 : List Op) :
    List Op × List Emit :=
  match o.symlink1 with
  | .ok _ => (ops1 ++ [Op.symlinkOp], successEmits num)
  | .error e =>
    if e.code ≠ "EEXIST" then
      (ops1 ++ [Op.symlinkOp], terminalEmits e num)
    else
      match o.removeStale with
      | .error e2 => (ops1 ++ [Op.symlinkOp, Op.removeDest], terminalEmits e2 num)
      | .ok _ =>
        match o.symlink2 with
        | .ok _ =>
          (ops1 ++ [Op.symlinkOp, Op.removeDest, Op.symlinkOp], successEmits num)
        | .error e2 =>
          (ops1 ++ [Op.symlinkOp, Op.removeDest, Op.symlinkOp], terminalEmits e2 num)

/-- The link-file handler, as the trace of primitive operations it runs
and the messages it emits.  Mirrors the promise chain: ensureDir; the
prep phase; the symlink phase with its single EEXIST retry; completed
emitted on every path, with report not-supported on an EISDIR terminal
failure. -/
def linkFile (o : LinkOutcomes) (num : Nat) : List Op × List Emit :=
  match o.ensureDir with
  | .error e => ([Op.ensureDir], terminalEmits e num)
  | .ok created =>
    match linkFilePrep o created with
    | (ops1, .error e) => (ops1, terminalEmits e num)
    | (ops1, .ok _) => linkFileSymlinkPhase o num ops1

/-! ## Application level error kinds -/

/-- Error kinds of the application layer: the custom error classes
ProcessCanceled, TemporaryError and UserCanceled, filesystem errors
carrying an OS error code, and anything else. -/
inductive VErr
  | ProcessCanceled (msg : String)
  | TemporaryError (msg : String)
  | UserCanceled
  | fsErr (code : String)
  | other (msg : String)
  deriving DecidableEq, Repr

/-- The code property read off an error by the bluebird object-predicate
catches: only filesystem errors carry one. -/
def errCode : VErr → Option String
  | .fsErr c => some c
  | _ => none

/-! ## Staging tag validation (validateStagingTag) -/

/-- The parsed staging tag record.  The source field is named instance,
which is a keyword in Lean, hence instanceId here. -/
structure StagingTag where
  instanceId : String
  game : String
  deriving DecidableEq, Repr

/-- validateStagingTag.  readResult is the settled outcome of reading
and JSON-parsing the tag file; the two answer arguments are the labels
the user picks in the instance-mismatch dialog and in the unmarked
directory dialog respectively.  Returns the list of dialogs shown, in
order, and the settled result.  Mirrors the source chain
readFileAsync(tagPath).then(data => instance mismatch ? dialog :
resolve).catch(() => unmarked dialog): note that the trailing catch has
no predicate, so it also catches the UserCanceled rejected when the
user cancels the mismatch dialog. -/
def validateStagingTag (readResult : Except Unit StagingTag)
    (currentInstanceId : String) (mismatchAnswer : String)
    (unmarkedAnswer : String) : List String × Except VErr Unit :=
  let firstStage : List String × Except VErr Unit :=
    match readResult with
    | .error _ => ([], .error (.other "read or parse failed"))
    | .ok tag =>
      if tag.instanceId ≠ currentInstanceId then
        (["mismatch-confirm"],
         if mismatchAnswer == "Cancel" then .error .UserCanceled else .ok ())
      else
        ([], .ok ())
  match firstStage with
  | (ds, .ok _) => (ds, .ok ())
  | (ds, .error _) =>
    (ds ++ ["unmarked-confirm"],
     if unmarkedAnswer == "Cancel" then .error .UserCanceled else .ok ())

/-! ## Purge error handling during activator migration
(onGameModeActivated) -/

/-- How a purge outcome is surfaced to the user during activator
migration. -/
inductive PurgeSurface
  | resolvedSilently
  | notifyTemporary (allowReport : Bool)
  | notifyFailure (allowReport : Bool)
  deriving DecidableEq, Repr

/-- The report-eligibility flag the source computes for a purge failure:
allowReport = indexOf(err.code) in [ENOENT, ENOTFOUND] is not -1.  An
error without a code property compares as undefined and yields false. -/
def purgeAllowReport (code : Option String) : Bool :=
  ["ENOENT", "ENOTFOUND"].contains (code.getD "")

/-- The catch chain after the per-type purge loop in onGameModeActivated:
catch ProcessCanceled as a silent resolve; catch TemporaryError with a
non-reportable notification; catch everything else with a Purge failed
notification whose allowReport flag is purgeAllowReport of the error
code. -/
def onGameModeActivatedPurgeCatch : Except VErr Unit → PurgeSurface
  | .ok _ => .resolvedSilently
  | .error (.ProcessCanceled _) => .resolvedSilently
  | .error (.TemporaryError _) => .notifyTemporary false
  | .error e => .notifyFailure (purgeAllowReport (errCode e))

/-! ## Remove-mod orchestration (onRemoveMod) -/

/-- A mod catalog record: the fields of IMod that onRemoveMod reads. -/
structure ModRec where
  id : String
  state : String
  installationPath : Option String
  deriving DecidableEq, Repr

/-- The mod catalog: game mode to mod id to record. -/
abbrev Catalog := List (String × List (String × ModRec))

/-- Association list lookup, the shape getSafe and property access
reduce to. -/
def lookupA (l : List (String × α)) (k : String) : Option α :=
  (l.find? (fun q => q.1 == k)).map (fun q => q.2)

/-- Look a mod up in the catalog. -/
def catLookup (c : Catalog) (gameMode modId : String) : Option ModRec :=
  (lookupA c gameMode).bind (fun g => lookupA g modId)

/-- The store slice onRemoveMod reads. -/
structure StoreState where
  mods : Catalog
  lastActiveProfile : Option String
  installationPath : String
  deriving Repr

/-- getSafe(state, [persistent, mods, gameMode, modId, state],
undefined). -/
def modStateOf (st : StoreState) (gameMode modId : String) : Option String :=
  (catLookup st.mods gameMode modId).map ModRec.state

/-- Store actions onRemoveMod may dispatch. -/
inductive Action
  | setModEnabled (profileId : Option String) (modId : String) (enabled : Bool)
  | startActivity (group : String) (activity : String)
  | stopActivity (group : String) (activity : String)
  | removeMod (gameMode : String) (modId : String)
  deriving DecidableEq, Repr

/-- Effect of one dispatched action on the mod catalog: only removeMod
changes it. -/
def applyAction (c : Catalog) : Action → Catalog
  | .removeMod gm mid =>
    c.map (fun p => if p.1 == gm then (p.1, p.2.filter (fun q => q.1 != mid)) else p)
  | _ => c

/-- Effect of a dispatched action list on the mod catalog. -/
def applyActions (c : Catalog) (as : List Action) : Catalog :=
  as.foldl applyAction c

/-- Settled results of the external effects onRemoveMod triggers:
the undeploy cycle, the Mod not found dialog answer, the deploy-mods
event outcome, and each successive fs.removeAsync call on the staged
path. -/
structure RemoveEnv where
  undeployResult : Except VErr Unit
  dialogAction : String
  deployErr : Option VErr
  removeAsync : Nat → Except VErr Unit

/-- JS truthiness of an optional string: undefined and the empty string
are falsy. -/
def truthyStr : Option String → Bool
  | some s => s != ""
  | none => false

/-- The undeployMod closure inside onRemoveMod: skip when the mod has no
installationPath; run the undeploy cycle; on a failure whose code is
ENOTFOUND show the Mod not found dialog and either resolve (Ignore) or
wait for a full deploy-mods pass (Deploy), rejecting with the deploy
error if that pass fails; any other failure propagates.  Returns the
dialogs shown and the settled result. -/
def undeployMod (env : RemoveEnv) (m : ModRec) : List String × Except VErr Unit :=
  match m.installationPath with
  | none => ([], .ok ())
  | some _ =>
    match env.undeployResult with
    | .ok _ => ([], .ok ())
    | .error e =>
      if errCode e == some "ENOTFOUND" then
        (["Mod not found"],
         if env.dialogAction == "Deploy" then
           match env.deployErr with
           | some de => .error de
           | none => .ok ()
         else .ok ())
      else ([], .error e)

/-- Deletion of the staged files: fs.removeAsync(fullModPath), catching
ENOTEMPTY with one retry, then treating ENOENT as success; any other
error propagates.  removeAsync i is the settled result of the i-th
call. -/
def deleteStagedFiles (removeAsync : Nat → Except VErr Unit) : Except VErr Unit :=
  match removeAsync 0 with
  | .ok _ => .ok ()
  | .error e =>
    let afterRetry : Except VErr Unit :=
      if errCode e == some "ENOTEMPTY" then removeAsync 1 else .error e
    match afterRetry with
    | .ok _ => .ok ()
    | .error e2 => if errCode e2 == some "ENOENT" then .ok () else .error e2

/-- The part of the removal pipeline that must succeed before the
catalog entry is deleted: undeploy, then staged-file deletion (the
latter skipped when the installation path is not truthy). -/
def removalChain (env : RemoveEnv) (m : ModRec) : Except VErr Unit :=
  match (undeployMod env m).2 with
  | .error e => .error e
  | .ok _ =>
    if truthyStr m.installationPath then deleteStagedFiles env.removeAsync
    else .ok ()

/-- How a pipeline failure is surfaced: with a callback every error
class is passed to the callback; without one, TemporaryError and
ProcessCanceled produce non-reportable notifications, UserCanceled is
swallowed, and anything else produces a reportable notification. -/
def surfaceError (hasCallback : Bool) (e : VErr) :
    Option (Option VErr) × List (String × Bool) :=
  if hasCallback then (some (some e), [])
  else
    match e with
    | .TemporaryError _ => (none, [("Failed to undeploy mod, please try again", false)])
    | .ProcessCanceled _ => (none, [("Failed to remove mod", false)])
    | .UserCanceled => (none, [])
    | _ => (none, [("Failed to remove mod", true)])

/-- Observable outcome of one onRemoveMod run: the dispatched store
actions in order, the value the callback was invoked with (some none is
callback(null), some (some e) is callback(e), none means the callback
was not called), the dialogs shown, and the error notifications raised
(title, allowReport). -/
structure RemoveOutcome where
  actions : List Action
  callbackResult : Option (Option VErr)
  dialogs : List String
  notifications : List (String × Bool)
  deriving Repr

/-- onRemoveMod.  Rejects with ProcessCanceled before dispatching
anything when the mod state is not downloaded or installed; otherwise
disables the mod in the last active profile, starts the removal
activity, runs undeployMod then the staged-file deletion, dispatches
removeMod only after both succeeded, invokes the callback with the
outcome, and always stops the activity. -/
def onRemoveMod (st : StoreState) (gameMode modId : String) (env : RemoveEnv)
    (hasCallback : Bool) : RemoveOutcome :=
  let modState := modStateOf st gameMode modId
  if !(match modState with
       | some s => ["downloaded", "installed"].contains s
       | none => false) then
    { actions := [],
      callbackResult :=
        if hasCallback then
          some (some (.ProcessCanceled "Cant delete mod during download or install"))
        else none,
      dialogs := [], notifications := [] }
  else
    let a1 := Action.setModEnabled st.lastActiveProfile modId false
    match lookupA st.mods gameMode with
    | none =>
      { actions := [a1],
        callbackResult := if hasCallback then some (some (.other "TypeError")) else none,
        dialogs := [],
        notifications :=
          if hasCallback then [] else [("Failed to remove mod (not found)", true)] }
    | some gameMods =>
      match lookupA gameMods modId with
      | none =>
        { actions := [a1],
          callbackResult := if hasCallback then some none else none,
          dialogs := [], notifications := [] }
      | some m =>
        let a2 := Action.startActivity "mods" ("removing_" ++ modId)
        let aStop := Action.stopActivity "mods" ("removing_" ++ modId)
        let dlgs := (undeployMod env m).1
        match removalChain env m with
        | .ok _ =>
          { actions := [a1, a2, Action.removeMod gameMode m.id, aStop],
            callbackResult := if hasCallback then some none else none,
            dialogs := dlgs, notifications := [] }
        | .error e =>
          { actions := [a1, a2, aStop],
            callbackResult := (surfaceError hasCallback e).1,
            dialogs := dlgs, notifications := (surfaceError hasCallback e).2 }

/-! ## File validation (validateFiles in util/fileValidation.ts) -/

/-- path.join as used with a base directory and a relative name. -/
def joinPath (a b : String) : String := a ++ "/" ++ b

/-- Insert or overwrite a key in the JS-object model: assignment to an
existing key keeps its position, a new key is appended (insertion
order, as Object.keys later observes it). -/
def upsert (l : List (String × Option String)) (k : String) (v : Option String) :
    List (String × Option String) :=
  if l.any (fun p => p.1 == k) then
    l.map (fun p => if p.1 == k then (k, v) else p)
  else l ++ [(k, v)]

/-- readHashList parsing: split the file on newlines, split each line on
the first colon into key and hash (a line without a colon yields an
undefined hash), and accumulate into an object. -/
def readHashList (csvData : String) : List (String × Option String) :=
  (csvData.splitOn "\n").foldl
    (fun prev line =>
      let parts := line.splitOn ":"
      upsert prev (parts.headD "") parts[1]?)
    []

/-- The hash list validateFiles iterates over: empty when reading the
csv file failed (the catch block only logs). -/
def fileListOf (csv : Except Unit String) : List (String × Option String) :=
  match csv with
  | .error _ => []
  | .ok data => readHashList data

/-- Result record of validateFiles. -/
structure ValidationResult where
  missing : List String
  changed : List String
  deriving DecidableEq, Repr

/-- One step of the validateFiles loop: hash the file; on failure push
the name to missing; on success push it to changed when the hash
differs from the recorded one (a strict comparison, so an undefined
recorded hash always differs). -/
def validateStep (basePath : String) (hashFile : String → Except Unit String)
    (result : ValidationResult) (entry : String × Option String) : ValidationResult :=
  match hashFile (joinPath basePath entry.1) with
  | .ok h =>
    if some h ≠ entry.2 then { result with changed := result.changed ++ [entry.1] }
    else result
  | .error _ => { result with missing := result.missing ++ [entry.1] }

/-- validateFiles: read the hash list (tolerating a missing or
unreadable csv by validating nothing) and classify every listed file. -/
def validateFiles (basePath : String) (csv : Except Unit String)
    (hashFile : String → Except Unit String) : ValidationResult :=
  (fileListOf csv).foldl (validateStep basePath hashFile) ⟨[], []⟩

/-- Observable used to state which names validateFiles classifies as
missing: hashing the file failed. -/
def hashFailed (basePath : String) (hashFile : String → Except Unit String)
    (name : String) : Bool :=
  match hashFile (joinPath basePath name) with
  | .ok _ => false
  | .error _ => true

/-- Observable used to state which entries validateFiles classifies as
changed: hashing succeeded but the hash differs from the recorded
one. -/
def hashChanged (basePath : String) (hashFile : String → Except Unit String)
    (entry : String × Option String) : Bool :=
  match hashFile (joinPath basePath entry.1) with
  | .ok h => decide (some h ≠ entry.2)
  | .error _ => false

/-! ## Helper lemmas about doFS -/

/-- A doFS attempt that settles successfully returns at once: one
attempt, no delay. -/
theorem doFS_ok (op : Nat → Except FSError α) (v : α) (tries attempt : Nat)
    (h : op attempt = .ok v) : doFS op tries attempt = (.ok v, 1, 0) := by
  cases tries <;> simp [doFS, h]

/-- A failure with a code outside RETRY_ERRORS rejects at once. -/
theorem doFS_error_noretry (op : Nat → Except FSError α) (e : FSError)
    (tries attempt : Nat) (h : op attempt = .error e)
    (hcode : RETRY_ERRORS.contains e.code = false) :
    doFS op tries attempt = (.error e, 1, 0) := by
  have hc : e.code ∉ RETRY_ERRORS := by simpa using hcode
  cases tries <;> simp [doFS, h, hc]

/-- A retryable failure with tries left recurses after a 100 ms delay. -/
theorem doFS_error_step (op : Nat → Except FSError α) (e : FSError)
    (t attempt : Nat) (h : op attempt = .error e)
    (hcode : RETRY_ERRORS.contains e.code = true) :
    doFS op (t + 1) attempt =
      ((doFS op t (attempt + 1)).1, (doFS op t (attempt + 1)).2.1 + 1,
        (doFS op t (attempt + 1)).2.2 + 100) := by
  have hc : e.code ∈ RETRY_ERRORS := by simpa using hcode
  simp [doFS, h, hc]

/-- An operation that fails every attempt with one retryable error
exhausts all tries: tries + 1 attempts, 100 ms between consecutive
attempts, and the error rejected unchanged. -/
theorem doFS_error_exhaust (op : Nat → Except FSError α) (e : FSError)
    (hcode : RETRY_ERRORS.contains e.code = true)
    (hop : ∀ i, op i = .error e) :
    ∀ tries attempt, doFS op tries attempt = (.error e, tries + 1, 100 * tries) := by
  intro tries
  induction tries with
  | zero => intro attempt; simp [doFS, hop attempt, hcode]
  | succ t ih =>
    intro attempt
    rw [doFS_error_step op e t attempt (hop attempt) hcode, ih (attempt + 1)]
    simp
    omega

/-- doFS makes at most tries + 1 attempts. -/
theorem doFS_attempts_le (op : Nat → Except FSError α) :
    ∀ tries attempt, (doFS op tries attempt).2.1 ≤ tries + 1 := by
  intro tries
  induction tries with
  | zero =>
    intro attempt
    cases h : op attempt <;> simp [doFS, h]
  | succ t ih =>
    intro attempt
    cases h : op attempt with
    | ok v => simp [doFS, h]
    | error e =>
      by_cases hc : RETRY_ERRORS.contains e.code
      · rw [doFS_error_step op e t attempt h hc]
        have := ih (attempt + 1)
        simpa using this
      · simp [doFS_error_noretry op e (t + 1) attempt h (by simpa using hc)]

/-! ## Claim theorems -/

/-- Claim C3: every operation run through doFS is retried after a
100 ms delay when its error code is in EPERM, EBUSY, EIO, EBADF,
UNKNOWN, up to 5 additional attempts beyond the first (at most 6
attempts in total); after exhausting the retries the original error is
rejected unchanged with 500 ms of accumulated delay; an error with a
code outside that set rejects immediately, with no retry and no
delay. -/
theorem doFS_retry_policy (e : FSError) (op : Nat → Except FSError Unit) :
    ((∀ i, op i = .error e) → RETRY_ERRORS.contains e.code = true →
      doFS op 5 0 = (.error e, 6, 500))
    ∧ (op 0 = .error e → RETRY_ERRORS.contains e.code = false →
      doFS op 5 0 = (.error e, 1, 0))
    ∧ (op 0 = .error e → op 1 = .ok () → RETRY_ERRORS.contains e.code = true →
      doFS op 5 0 = (.ok (), 2, 100))
    ∧ (doFS op 5 0).2.1 ≤ 6 := by
  refine ⟨fun hop hcode => ?_, fun h0 hcode => ?_, fun h0 h1 hcode => ?_, ?_⟩
  · rw [doFS_error_exhaust op e hcode hop 5 0]
  · rw [doFS_error_noretry op e 5 0 h0 hcode]
  · rw [show (5 : Nat) = 4 + 1 from rfl, doFS_error_step op e 4 0 h0 hcode,
      doFS_ok op () 4 1 h1]
  · exact doFS_attempts_le op 5 0

/-- Witness for C3 at a concrete always-EBUSY operation: six attempts,
500 ms of delay, the EBUSY error surfaced unchanged. -/
theorem doFS_retry_policy_witness :
    doFS (fun _ => (Except.error ⟨"EBUSY", "busy"⟩ : Except FSError Unit)) 5 0
      = (.error ⟨"EBUSY", "busy"⟩, 6, 500) :=
  (doFS_retry_policy ⟨"EBUSY", "busy"⟩
    (fun _ => (Except.error ⟨"EBUSY", "busy"⟩ : Except FSError Unit))).1
    (fun _ => rfl) (by decide)

/-- Removing a path from the filesystem model removes that path. -/
theorem lookupFs_fsRemoveEntry_self (fs : Fs) (p : String) :
    lookupFs (fsRemoveEntry fs p) p = none := by
  induction fs with
  | nil => rfl
  | cons q t ih =>
    by_cases h : q.1 = p
    · have h1 : fsRemoveEntry (q :: t) p = fsRemoveEntry t p := by
        simp [fsRemoveEntry, List.filter_cons, h]
      rw [h1]; exact ih
    · have h1 : fsRemoveEntry (q :: t) p = q :: fsRemoveEntry t p := by
        simp [fsRemoveEntry, List.filter_cons, h]
      have hq : (q.1 == p) = false := by simp [h]
      rw [h1, lookupFs, List.find?_cons, hq]
      exact ih

/-- Claim C4: the remove-link handler removes the destination only when
lstat reports a symbolic link there; a regular file or directory at the
destination is never removed; and exactly one completed response is
emitted whether the removal happened (symlink), was skipped (other
entry kind) or failed (lstat error on a missing path). -/
theorem removeLink_safe (fs : Fs) (destination : String) (num : Nat) :
    ((removeLink fs destination num).2.countP Emit.isCompleted = 1)
    ∧ (∀ k, k ≠ FSEntry.symlink → lookupFs fs destination = some k →
        lookupFs (removeLink fs destination num).1 destination = some k)
    ∧ (lookupFs fs destination = some FSEntry.symlink →
        lookupFs (removeLink fs destination num).1 destination = none)
    ∧ (lookupFs fs destination = none →
        (removeLink fs destination num).2
          = [Emit.completed (some ⟨"ENOENT", "no such file or directory"⟩) num]) := by
  cases h : lookupFs fs destination with
  | none =>
    have hl : lstat fs destination = .error ⟨"ENOENT", "no such file or directory"⟩ := by
      simp [lstat, h]
    have hd := doFS_error_noretry (fun _ => lstat fs destination)
      ⟨"ENOENT", "no such file or directory"⟩ 5 0 hl (by decide)
    refine ⟨?_, ?_, ?_, ?_⟩
    · simp [removeLink, hd, Emit.isCompleted]
    · intro k _ hk; exact absurd hk (by simp)
    · intro hk; exact absurd hk (by simp)
    · intro _; simp [removeLink, hd]
  | some k =>
    have hl : lstat fs destination = .ok k := by simp [lstat, h]
    have hd := doFS_ok (fun _ => lstat fs destination) k 5 0 hl
    by_cases hk : k = FSEntry.symlink
    · subst hk
      have hr := doFS_ok
        (fun _ => (Except.ok (fsRemoveEntry fs destination) : Except FSError Fs))
        (fsRemoveEntry fs destination) 5 0 rfl
      refine ⟨?_, ?_, ?_, ?_⟩
      · simp [removeLink, hd, hr, Emit.isCompleted]
      · intro k' hk' hk2
        exact absurd (Option.some.inj hk2).symm hk'
      · intro _
        simp [removeLink, hd, hr]
        exact lookupFs_fsRemoveEntry_self fs destination
      · intro hnone; exact absurd hnone (by simp)
    · refine ⟨?_, ?_, ?_, ?_⟩
      · simp [removeLink, hd, hk, Emit.isCompleted]
      · intro k' _ hk2
        simp [removeLink, hd, hk]
        rw [h]; exact hk2
      · intro hk2
        exact absurd (Option.some.inj hk2) hk
      · intro hnone; exact absurd hnone (by simp)

/-- Witness for C4 at concrete filesystems: a regular file at the
destination survives remove-link, a symlink is removed. -/
theorem removeLink_safe_witness :
    lookupFs (removeLink [("d", FSEntry.file)] "d" 3).1 "d" = some FSEntry.file
    ∧ lookupFs (removeLink [("s", FSEntry.symlink)] "s" 4).1 "s" = none :=
  ⟨(removeLink_safe [("d", FSEntry.file)] "d" 3).2.1 FSEntry.file (by decide) (by decide),
   (removeLink_safe [("s", FSEntry.symlink)] "s" 4).2.2.1 (by decide)⟩

/-- The terminal emissions of link-file contain exactly one completed
response. -/
theorem countP_terminalEmits (e : FSError) (num : Nat) :
    (terminalEmits e num).countP Emit.isCompleted = 1 := by
  by_cases h : e.code = "EISDIR" <;>
    simp [terminalEmits, h, List.countP_append, List.countP_cons, Emit.isCompleted]

/-- The success emissions of link-file contain exactly one completed
response. -/
theorem countP_successEmits (num : Nat) :
    (successEmits num).countP Emit.isCompleted = 1 := by
  simp [successEmits, List.countP_cons, Emit.isCompleted]

/-- A terminal completed response whose error code is EISDIR comes with
a report not-supported emission. -/
theorem mem_terminalEmits_eisdir (e e' : FSError) (num : Nat)
    (hmem : Emit.completed (some e') num ∈ terminalEmits e num)
    (hc : e'.code = "EISDIR") :
    Emit.report "not-supported" ∈ terminalEmits e num := by
  by_cases h : e.code = "EISDIR"
  · simp [terminalEmits, h]
  · simp [terminalEmits, h] at hmem
    rw [hmem] at hc
    exact absurd hc h

/-- The success emissions never carry an error. -/
theorem not_mem_successEmits (e' : FSError) (num : Nat) :
    Emit.completed (some e') num ∉ successEmits num := by
  simp [successEmits]


/-- The symlink phase emits exactly one completed response. -/
theorem linkFileSymlinkPhase_one_completed (o : LinkOutcomes) (num : Nat)
    (ops1 : List Op) :
    (linkFileSymlinkPhase o num ops1).2.countP Emit.isCompleted = 1 := by
  obtain ⟨ed, wt, r0, s1, rs, s2⟩ := o
  cases s1 with
  | ok v => exact countP_successEmits num
  | error e =>
    dsimp only [linkFileSymlinkPhase]
    by_cases h : e.code = "EEXIST"
    · rw [if_neg (by simp [h])]
      cases rs with
      | error e2 => exact countP_terminalEmits e2 num
      | ok v =>
        cases s2 with
        | ok w => exact countP_successEmits num
        | error e2 => exact countP_terminalEmits e2 num
    · rw [if_pos h]
      exact countP_terminalEmits e num

/-- Symlink attempt count of the symlink phase: at most two more than
the incoming trace, and exactly two more only on the EEXIST
remove-and-retry path, whose trace ends symlink, remove, symlink. -/
theorem linkFileSymlinkPhase_count (o : LinkOutcomes) (num : Nat) (ops1 : List Op) :
    ((linkFileSymlinkPhase o num ops1).1.count Op.symlinkOp
      ≤ ops1.count Op.symlinkOp + 2)
    ∧ ((linkFileSymlinkPhase o num ops1).1.count Op.symlinkOp
          = ops1.count Op.symlinkOp + 2 →
        ∃ e, o.symlink1 = .error e ∧ e.code = "EEXIST" ∧
          [Op.symlinkOp, Op.removeDest, Op.symlinkOp]
            <:+ (linkFileSymlinkPhase o num ops1).1) := by
  obtain ⟨ed, wt, r0, s1, rs, s2⟩ := o
  have c1 : (ops1 ++ [Op.symlinkOp]).count Op.symlinkOp
      = ops1.count Op.symlinkOp + 1 := by
    simp [List.count_append]
  have c2 : (ops1 ++ [Op.symlinkOp, Op.removeDest]).count Op.symlinkOp
      = ops1.count Op.symlinkOp + 1 := by
    simp [List.count_append, List.count_cons]
  have c3 : (ops1 ++ [Op.symlinkOp, Op.removeDest, Op.symlinkOp]).count Op.symlinkOp
      = ops1.count Op.symlinkOp + 2 := by
    simp [List.count_append, List.count_cons]
  cases s1 with
  | ok v =>
    constructor
    · show (ops1 ++ [Op.symlinkOp]).count Op.symlinkOp ≤ ops1.count Op.symlinkOp + 2
      omega
    · intro hcount
      rw [show (linkFileSymlinkPhase ⟨ed, wt, r0, .ok v, rs, s2⟩ num ops1).1
          = ops1 ++ [Op.symlinkOp] from rfl] at hcount
      omega
  | error e =>
    dsimp only [linkFileSymlinkPhase]
    by_cases h : e.code = "EEXIST"
    · rw [if_neg (by simp [h])]
      cases rs with
      | error e2 =>
        dsimp only
        constructor
        · omega
        · intro hcount; omega
      | ok v =>
        have hsuf : (fun t => [Op.symlinkOp, Op.removeDest, Op.symlinkOp] <:+ t)
            (ops1 ++ [Op.symlinkOp, Op.removeDest, Op.symlinkOp]) :=
          List.suffix_append ops1 _
        cases s2 with
        | ok w =>
          dsimp only
          exact ⟨by omega, fun _ => ⟨e, rfl, h, hsuf⟩⟩
        | error e2 =>
          dsimp only
          exact ⟨by omega, fun _ => ⟨e, rfl, h, hsuf⟩⟩
    · rw [if_pos h]
      dsimp only
      exact ⟨by omega, fun hcount => by omega⟩

/-- An EISDIR completed response of the symlink phase comes with a
report not-supported emission. -/
theorem linkFileSymlinkPhase_eisdir (o : LinkOutcomes) (num : Nat) (ops1 : List Op)
    (e' : FSError)
    (hmem : Emit.completed (some e') num ∈ (linkFileSymlinkPhase o num ops1).2)
    (hc : e'.code = "EISDIR") :
    Emit.report "not-supported" ∈ (linkFileSymlinkPhase o num ops1).2 := by
  obtain ⟨ed, wt, r0, s1, rs, s2⟩ := o
  cases s1 with
  | ok v => exact absurd hmem (not_mem_successEmits e' num)
  | error e =>
    dsimp only [linkFileSymlinkPhase] at hmem ⊢
    by_cases h : e.code = "EEXIST"
    · rw [if_neg (by simp [h])] at hmem ⊢
      cases rs with
      | error e2 => exact mem_terminalEmits_eisdir e2 e' num hmem hc
      | ok v =>
        cases s2 with
        | ok w => exact absurd hmem (not_mem_successEmits e' num)
        | error e2 => exact mem_terminalEmits_eisdir e2 e' num hmem hc
    · rw [if_pos h] at hmem ⊢
      exact mem_terminalEmits_eisdir e e' num hmem hc

/-- Packaging of the symlink phase facts for a trace with no prior
symlink attempts. -/
theorem linkFilePhaseFacts (o : LinkOutcomes) (num : Nat) (ops1 : List Op)
    (h0 : ops1.count Op.symlinkOp = 0) :
    ((linkFileSymlinkPhase o num ops1).2.countP Emit.isCompleted = 1)
    ∧ ((linkFileSymlinkPhase o num ops1).1.count Op.symlinkOp ≤ 2)
    ∧ ((linkFileSymlinkPhase o num ops1).1.count Op.symlinkOp = 2 →
        ∃ e, o.symlink1 = .error e ∧ e.code = "EEXIST" ∧
          [Op.symlinkOp, Op.removeDest, Op.symlinkOp]
            <:+ (linkFileSymlinkPhase o num ops1).1)
    ∧ (∀ e, Emit.completed (some e) num ∈ (linkFileSymlinkPhase o num ops1).2 →
        e.code = "EISDIR" →
        Emit.report "not-supported" ∈ (linkFileSymlinkPhase o num ops1).2) := by
  have hcnt := linkFileSymlinkPhase_count o num ops1
  rw [h0] at hcnt
  have h1 := hcnt.1
  exact ⟨linkFileSymlinkPhase_one_completed o num ops1,
    by omega,
    fun hcount => hcnt.2 (by omega),
    fun e' hmem hcode => linkFileSymlinkPhase_eisdir o num ops1 e' hmem hcode⟩

/-- Claim C5: for every link-file request exactly one completed
response is emitted; the handler attempts the symlink at most twice,
and makes a second attempt only when the first failed with EEXIST, in
which case it removes the stale destination between the two attempts;
and a terminal failure whose code is EISDIR emits report not-supported
in addition to the completed response. -/
theorem linkFile_protocol (o : LinkOutcomes) (num : Nat) :
    ((linkFile o num).2.countP Emit.isCompleted = 1)
    ∧ ((linkFile o num).1.count Op.symlinkOp ≤ 2)
    ∧ ((linkFile o num).1.count Op.symlinkOp = 2 →
        ∃ e, o.symlink1 = .error e ∧ e.code = "EEXIST" ∧
          [Op.symlinkOp, Op.removeDest, Op.symlinkOp] <:+ (linkFile o num).1)
    ∧ (∀ e, Emit.completed (some e) num ∈ (linkFile o num).2 → e.code = "EISDIR" →
        Emit.report "not-supported" ∈ (linkFile o num).2) := by
  obtain ⟨ed, wt, r0, s1, rs, s2⟩ := o
  cases ed with
  | error e =>
    dsimp only [linkFile]
    refine ⟨countP_terminalEmits e num, by decide, ?_, ?_⟩
    · intro hcount
      exact absurd hcount (by decide)
    · intro e' hmem hcode
      exact mem_terminalEmits_eisdir e e' num hmem hcode
  | ok created =>
    cases created with
    | some s =>
      cases wt with
      | error e =>
        dsimp only [linkFile, linkFilePrep]
        refine ⟨countP_terminalEmits e num, by decide, ?_, ?_⟩
        · intro hcount; exact absurd hcount (by decide)
        · intro e' hmem hcode; exact mem_terminalEmits_eisdir e e' num hmem hcode
      | ok v =>
        exact linkFilePhaseFacts ⟨.ok (some s), .ok v, r0, s1, rs, s2⟩ num
          [Op.ensureDir, Op.writeTag] (by decide)
    | none =>
      cases r0 with
      | ok v =>
        exact linkFilePhaseFacts ⟨.ok none, wt, .ok v, s1, rs, s2⟩ num
          [Op.ensureDir, Op.removeDest] (by decide)
      | error e0 =>
        by_cases h0 : e0.code = "ENOENT"
        · have hprep : linkFilePrep ⟨.ok none, wt, .error e0, s1, rs, s2⟩ none
              = ([Op.ensureDir, Op.removeDest], .ok ()) := by
            simp [linkFilePrep, h0]
          dsimp only [linkFile]
          rw [hprep]
          dsimp only
          exact linkFilePhaseFacts ⟨.ok none, wt, .error e0, s1, rs, s2⟩ num
            [Op.ensureDir, Op.removeDest] (by decide)
        · have hprep : linkFilePrep ⟨.ok none, wt, .error e0, s1, rs, s2⟩ none
              = ([Op.ensureDir, Op.removeDest], .error e0) := by
            simp [linkFilePrep, h0]
          dsimp only [linkFile]
          rw [hprep]
          dsimp only
          refine ⟨countP_terminalEmits e0 num, by decide, ?_, ?_⟩
          · intro hcount; exact absurd hcount (by decide)
          · intro e' hmem hcode; exact mem_terminalEmits_eisdir e0 e' num hmem hcode

/-- Witness for C5 at a concrete request whose first symlink attempt
fails with EEXIST and whose retry fails with EISDIR: the stale
destination is removed between exactly two symlink attempts, and the
report not-supported emission accompanies the completed response. -/
theorem linkFile_protocol_witness :
    (∃ e, (⟨.ok none, .ok (), .ok (), .error ⟨"EEXIST", "exists"⟩, .ok (),
        .error ⟨"EISDIR", "is a directory"⟩⟩ : LinkOutcomes).symlink1 = .error e
      ∧ e.code = "EEXIST"
      ∧ [Op.symlinkOp, Op.removeDest, Op.symlinkOp]
          <:+ (linkFile ⟨.ok none, .ok (), .ok (), .error ⟨"EEXIST", "exists"⟩,
            .ok (), .error ⟨"EISDIR", "is a directory"⟩⟩ 7).1)
    ∧ Emit.report "not-supported"
        ∈ (linkFile ⟨.ok none, .ok (), .ok (), .error ⟨"EEXIST", "exists"⟩,
            .ok (), .error ⟨"EISDIR", "is a directory"⟩⟩ 7).2 :=
  ⟨(linkFile_protocol ⟨.ok none, .ok (), .ok (), .error ⟨"EEXIST", "exists"⟩,
      .ok (), .error ⟨"EISDIR", "is a directory"⟩⟩ 7).2.2.1 (by decide),
   (linkFile_protocol ⟨.ok none, .ok (), .ok (), .error ⟨"EEXIST", "exists"⟩,
      .ok (), .error ⟨"EISDIR", "is a directory"⟩⟩ 7).2.2.2
     ⟨"EISDIR", "is a directory"⟩ (by decide) rfl⟩

/-- Claim C1 (code bug): with a staging tag naming a different instance
and the user declining the mismatch dialog, validateStagingTag does not
stop after the single prompt: the trailing catch-all also catches the
UserCanceled rejection, so a second, unmarked-directory dialog is shown,
and accepting that second dialog even resolves the validation. -/
theorem validateStagingTag_double_prompt :
    validateStagingTag (.ok ⟨"other-instance", "game1"⟩) "current-instance"
        "Cancel" "I am sure"
      = (["mismatch-confirm", "unmarked-confirm"], .ok ())
    ∧ validateStagingTag (.ok ⟨"other-instance", "game1"⟩) "current-instance"
        "Cancel" "Cancel"
      = (["mismatch-confirm", "unmarked-confirm"], .error .UserCanceled)
    ∧ validateStagingTag (.ok ⟨"current-instance", "game1"⟩) "current-instance"
        "Cancel" "Cancel"
      = ([], .ok ()) := by
  refine ⟨?_, ?_, ?_⟩ <;> rfl

/-- Claim C2 (code bug): the allowReport flag computed for a purge
failure during activator migration is inverted: the handler sets it to
true exactly for the codes ENOENT and ENOTFOUND and to false for every
other code, while ProcessCanceled is swallowed and TemporaryError is
surfaced without report eligibility. -/
theorem purgeCatch_allowReport_inverted :
    onGameModeActivatedPurgeCatch (.error (.fsErr "ENOENT")) = .notifyFailure true
    ∧ onGameModeActivatedPurgeCatch (.error (.fsErr "ENOTFOUND")) = .notifyFailure true
    ∧ onGameModeActivatedPurgeCatch (.error (.fsErr "EPERM")) = .notifyFailure false
    ∧ onGameModeActivatedPurgeCatch (.error (.fsErr "EACCES")) = .notifyFailure false
    ∧ onGameModeActivatedPurgeCatch (.error (.ProcessCanceled "x")) = .resolvedSilently
    ∧ onGameModeActivatedPurgeCatch (.error (.TemporaryError "x")) = .notifyTemporary false :=
  ⟨rfl, rfl, rfl, rfl, rfl, rfl⟩

/-- Evaluation of onRemoveMod once its target mod is found in an
allowed state: the outcome is determined by the removal chain. -/
theorem onRemoveMod_found (st : StoreState) (gm mid : String) (env : RemoveEnv)
    (hasCb : Bool) (m : ModRec)
    (hm : catLookup st.mods gm mid = some m)
    (hstate : ["downloaded", "installed"].contains m.state = true) :
    onRemoveMod st gm mid env hasCb =
      (match removalChain env m with
       | .ok _ =>
         { actions := [Action.setModEnabled st.lastActiveProfile mid false,
             Action.startActivity "mods" ("removing_" ++ mid),
             Action.removeMod gm m.id,
             Action.stopActivity "mods" ("removing_" ++ mid)],
           callbackResult := if hasCb then some none else none,
           dialogs := (undeployMod env m).1, notifications := [] }
       | .error e =>
         { actions := [Action.setModEnabled st.lastActiveProfile mid false,
             Action.startActivity "mods" ("removing_" ++ mid),
             Action.stopActivity "mods" ("removing_" ++ mid)],
           callbackResult := (surfaceError hasCb e).1,
           dialogs := (undeployMod env m).1,
           notifications := (surfaceError hasCb e).2 }) := by
  have hm0 := hm
  unfold catLookup at hm0
  cases hgl : lookupA st.mods gm with
  | none => rw [hgl] at hm0; exact absurd hm0 (by simp)
  | some gameMods =>
    rw [hgl] at hm0
    simp only [Option.some_bind] at hm0
    have hms : modStateOf st gm mid = some m.state := by
      unfold modStateOf
      rw [hm]
      rfl
    simp only [onRemoveMod, hms, hstate, hgl, hm0]
    rfl

/-- Claim C6: remove-mod on a mod whose state is neither downloaded nor
installed invokes the callback with a ProcessCanceled error, dispatches
no store action and leaves the mod catalog unchanged. -/
theorem onRemoveMod_rejects_transitional (st : StoreState) (gm mid : String)
    (env : RemoveEnv) (s : String)
    (hs : modStateOf st gm mid = some s)
    (hnot : ["downloaded", "installed"].contains s = false) :
    (onRemoveMod st gm mid env true).callbackResult
        = some (some (.ProcessCanceled "Cant delete mod during download or install"))
    ∧ (onRemoveMod st gm mid env true).actions = []
    ∧ applyActions st.mods (onRemoveMod st gm mid env true).actions = st.mods := by
  have h1 : onRemoveMod st gm mid env true
      = { actions := [],
          callbackResult := some (some (.ProcessCanceled
            "Cant delete mod during download or install")),
          dialogs := [], notifications := [] } := by
    simp only [onRemoveMod, hs, hnot]
    rfl
  rw [h1]
  exact ⟨rfl, rfl, rfl⟩

/-- Witness for C6 on a concrete catalog holding one mod in state
installing. -/
theorem onRemoveMod_rejects_transitional_witness :
    (onRemoveMod ⟨[("g", [("m", ⟨"m", "installing", some "p"⟩)])], some "prof", "inst"⟩
        "g" "m" ⟨.ok (), "Ignore", none, fun _ => .ok ()⟩ true).callbackResult
      = some (some (.ProcessCanceled "Cant delete mod during download or install"))
    ∧ (onRemoveMod ⟨[("g", [("m", ⟨"m", "installing", some "p"⟩)])], some "prof", "inst"⟩
        "g" "m" ⟨.ok (), "Ignore", none, fun _ => .ok ()⟩ true).actions = []
    ∧ applyActions [("g", [("m", ⟨"m", "installing", some "p"⟩)])]
        (onRemoveMod ⟨[("g", [("m", ⟨"m", "installing", some "p"⟩)])], some "prof", "inst"⟩
          "g" "m" ⟨.ok (), "Ignore", none, fun _ => .ok ()⟩ true).actions
      = [("g", [("m", ⟨"m", "installing", some "p"⟩)])] :=
  onRemoveMod_rejects_transitional
    ⟨[("g", [("m", ⟨"m", "installing", some "p"⟩)])], some "prof", "inst"⟩
    "g" "m" ⟨.ok (), "Ignore", none, fun _ => .ok ()⟩ "installing" rfl (by decide)

/-- Claim C7 counterexample: when undeploy fails with an ENOENT error
no dialog is offered; the error propagates straight to the callback,
refuting the claim that ENOENT-class failures trigger the
ignore-or-deploy dialog. -/
theorem onRemoveMod_enoent_no_dialog :
    (onRemoveMod ⟨[("g", [("m1", ⟨"m1", "installed", some "modA"⟩)])], some "prof", "inst"⟩
        "g" "m1" ⟨.error (.fsErr "ENOENT"), "Ignore", none, fun _ => .ok ()⟩ true).dialogs
      = []
    ∧ (onRemoveMod ⟨[("g", [("m1", ⟨"m1", "installed", some "modA"⟩)])], some "prof", "inst"⟩
        "g" "m1" ⟨.error (.fsErr "ENOENT"), "Ignore", none, fun _ => .ok ()⟩
        true).callbackResult
      = some (some (.fsErr "ENOENT")) :=
  ⟨rfl, rfl⟩

/-- The dialogs shown by undeployMod on a failed undeploy: exactly the
Mod not found dialog when the error code is ENOTFOUND, none
otherwise. -/
theorem undeployMod_dialogs (env : RemoveEnv) (m : ModRec) (p : String) (e : VErr)
    (hip : m.installationPath = some p) (hu : env.undeployResult = .error e) :
    (undeployMod env m).1
      = if errCode e == some "ENOTFOUND" then ["Mod not found"] else [] := by
  unfold undeployMod
  rw [hip, hu]
  by_cases h : errCode e == some "ENOTFOUND"
  · simp [h]
  · simp [h]

/-- After an ENOTFOUND undeploy failure answered with Ignore, the
removal chain resolves provided the staged-file deletion does. -/
theorem removalChain_enotfound_resolves (env : RemoveEnv) (m : ModRec) (p : String)
    (e : VErr) (hip : m.installationPath = some p)
    (hu : env.undeployResult = .error e) (hc : errCode e = some "ENOTFOUND")
    (hd : env.dialogAction ≠ "Deploy")
    (hdel : deleteStagedFiles env.removeAsync = .ok ()) :
    removalChain env m = .ok () := by
  have hd2 : (env.dialogAction == "Deploy") = false := by simp [hd]
  have hund : (undeployMod env m).2 = .ok () := by
    unfold undeployMod
    rw [hip, hu]
    dsimp only
    rw [hc]
    simp [hd2]
  unfold removalChain
  rw [hund]
  by_cases htr : truthyStr m.installationPath = true
  · simp [htr, hdel]
  · simp [htr]

/-- Claim C7 as amended: during remove-mod the ignore-or-deploy dialog
is offered exactly when the undeploy failure carries the code
ENOTFOUND; ENOENT and all other codes propagate without a dialog.  On
ENOTFOUND answered with Ignore the removal proceeds once the
staged-file deletion succeeds. -/
theorem onRemoveMod_dialog_iff_enotfound (st : StoreState) (gm mid : String)
    (env : RemoveEnv) (m : ModRec) (p : String) (e : VErr)
    (hm : catLookup st.mods gm mid = some m)
    (hstate : ["downloaded", "installed"].contains m.state = true)
    (hip : m.installationPath = some p)
    (hu : env.undeployResult = .error e) :
    ((onRemoveMod st gm mid env true).dialogs
        = if errCode e == some "ENOTFOUND" then ["Mod not found"] else [])
    ∧ (errCode e = some "ENOTFOUND" → env.dialogAction ≠ "Deploy" →
        deleteStagedFiles env.removeAsync = .ok () →
        Action.removeMod gm m.id ∈ (onRemoveMod st gm mid env true).actions) := by
  have heval := onRemoveMod_found st gm mid env true m hm hstate
  constructor
  · have hd := undeployMod_dialogs env m p e hip hu
    rw [heval]
    cases hch : removalChain env m with
    | ok v => exact hd
    | error e0 => exact hd
  · intro hc hdact hdel
    have hch := removalChain_enotfound_resolves env m p e hip hu hc hdact hdel
    rw [heval, hch]
    simp

/-- Witness for C7 (amended) at a concrete ENOTFOUND undeploy failure
answered with Ignore: the removal is dispatched. -/
theorem onRemoveMod_dialog_iff_enotfound_witness :
    Action.removeMod "g" "m1"
      ∈ (onRemoveMod
          ⟨[("g", [("m1", ⟨"m1", "installed", some "modA"⟩)])], some "prof", "inst"⟩
          "g" "m1" ⟨.error (.fsErr "ENOTFOUND"), "Ignore", none, fun _ => .ok ()⟩
          true).actions :=
  (onRemoveMod_dialog_iff_enotfound
    ⟨[("g", [("m1", ⟨"m1", "installed", some "modA"⟩)])], some "prof", "inst"⟩
    "g" "m1" ⟨.error (.fsErr "ENOTFOUND"), "Ignore", none, fun _ => .ok ()⟩
    ⟨"m1", "installed", some "modA"⟩ "modA" (.fsErr "ENOTFOUND")
    rfl (by decide) rfl rfl).2 rfl (by decide) rfl

/-- Claim C8: the removeMod catalog action is dispatched exactly when
both the undeploy step and the staged-file deletion succeeded; on any
failure of those steps no removeMod action is dispatched and the
catalog entry is still present after the dispatched actions are
applied. -/
theorem onRemoveMod_catalog_safety (st : StoreState) (gm mid : String)
    (env : RemoveEnv) (hasCb : Bool) (m : ModRec)
    (hm : catLookup st.mods gm mid = some m)
    (hstate : ["downloaded", "installed"].contains m.state = true) :
    (∀ e, removalChain env m = .error e →
      (∀ x y, Action.removeMod x y ∉ (onRemoveMod st gm mid env hasCb).actions)
      ∧ catLookup (applyActions st.mods (onRemoveMod st gm mid env hasCb).actions)
          gm mid = some m)
    ∧ (removalChain env m = .ok () →
        Action.removeMod gm m.id ∈ (onRemoveMod st gm mid env hasCb).actions) := by
  have heval := onRemoveMod_found st gm mid env hasCb m hm hstate
  constructor
  · intro e he
    rw [heval, he]
    constructor
    · intro x y
      simp
    · exact hm
  · intro hok
    rw [heval, hok]
    simp

/-- Witness for C8 at a concrete failing undeploy (EPERM): no removeMod
action, catalog entry intact. -/
theorem onRemoveMod_catalog_safety_witness :
    Action.removeMod "g" "m1"
        ∉ (onRemoveMod
            ⟨[("g", [("m1", ⟨"m1", "installed", some "modA"⟩)])], some "prof", "inst"⟩
            "g" "m1" ⟨.error (.fsErr "EPERM"), "Ignore", none, fun _ => .ok ()⟩
            true).actions
    ∧ catLookup
        (applyActions [("g", [("m1", ⟨"m1", "installed", some "modA"⟩)])]
          (onRemoveMod
            ⟨[("g", [("m1", ⟨"m1", "installed", some "modA"⟩)])], some "prof", "inst"⟩
            "g" "m1" ⟨.error (.fsErr "EPERM"), "Ignore", none, fun _ => .ok ()⟩
            true).actions)
        "g" "m1" = some ⟨"m1", "installed", some "modA"⟩ :=
  ⟨((onRemoveMod_catalog_safety
      ⟨[("g", [("m1", ⟨"m1", "installed", some "modA"⟩)])], some "prof", "inst"⟩
      "g" "m1" ⟨.error (.fsErr "EPERM"), "Ignore", none, fun _ => .ok ()⟩
      true ⟨"m1", "installed", some "modA"⟩ rfl (by decide)).1
      (.fsErr "EPERM") rfl).1 "g" "m1",
   ((onRemoveMod_catalog_safety
      ⟨[("g", [("m1", ⟨"m1", "installed", some "modA"⟩)])], some "prof", "inst"⟩
      "g" "m1" ⟨.error (.fsErr "EPERM"), "Ignore", none, fun _ => .ok ()⟩
      true ⟨"m1", "installed", some "modA"⟩ rfl (by decide)).1
      (.fsErr "EPERM") rfl).2⟩

/-- Claim C9: staged-file deletion during remove-mod resolves when the
first delete succeeds; treats an ENOENT failure as success; retries
exactly once on ENOTEMPTY, resolving when the retry succeeds and
settling on the retry error (ENOENT again tolerated) when it fails,
with no further retry; and propagates any other error of the first
attempt unchanged. -/
theorem deleteStagedFiles_policy (r : Nat → Except VErr Unit) (e e2 : VErr) :
    (r 0 = .ok () → deleteStagedFiles r = .ok ())
    ∧ (r 0 = .error e → errCode e = some "ENOENT" → deleteStagedFiles r = .ok ())
    ∧ (r 0 = .error e → errCode e = some "ENOTEMPTY" → r 1 = .ok () →
        deleteStagedFiles r = .ok ())
    ∧ (r 0 = .error e → errCode e = some "ENOTEMPTY" → r 1 = .error e2 →
        deleteStagedFiles r
          = if errCode e2 == some "ENOENT" then .ok () else .error e2)
    ∧ (r 0 = .error e → errCode e ≠ some "ENOTEMPTY" → errCode e ≠ some "ENOENT" →
        deleteStagedFiles r = .error e) := by
  refine ⟨fun h0 => ?_, fun h0 hc => ?_, fun h0 hc h1 => ?_, fun h0 hc h1 => ?_,
    fun h0 hc1 hc2 => ?_⟩
  · simp [deleteStagedFiles, h0]
  · simp [deleteStagedFiles, h0, hc]
  · simp [deleteStagedFiles, h0, hc, h1]
  · simp only [deleteStagedFiles, h0, hc]
    simp [h1]
  · have hb1 : (errCode e == some "ENOTEMPTY") = false := by simp [hc1]
    have hb2 : (errCode e == some "ENOENT") = false := by simp [hc2]
    simp [deleteStagedFiles, h0, hb1, hb2]

/-- Witness for C9 at a concrete delete that fails once with ENOTEMPTY
and succeeds on the retry. -/
theorem deleteStagedFiles_policy_witness :
    deleteStagedFiles
        (fun i => if i = 0 then .error (.fsErr "ENOTEMPTY") else .ok ()) = .ok () :=
  (deleteStagedFiles_policy
    (fun i => if i = 0 then .error (.fsErr "ENOTEMPTY") else .ok ())
    (.fsErr "ENOTEMPTY") (.fsErr "ENOTEMPTY")).2.2.1 rfl rfl rfl

/-- Characterization of the validateFiles fold: missing collects the
listed names whose hashing failed, changed collects the listed entries
whose hash differs from the recorded one. -/
theorem validate_foldl_spec (bp : String) (hf : String → Except Unit String) :
    ∀ (fl : List (String × Option String)) (acc : ValidationResult),
      (fl.foldl (validateStep bp hf) acc).missing
        = acc.missing
          ++ (fl.filter (fun en => hashFailed bp hf en.1)).map (fun en => en.1)
      ∧ (fl.foldl (validateStep bp hf) acc).changed
        = acc.changed ++ (fl.filter (hashChanged bp hf)).map (fun en => en.1) := by
  intro fl
  induction fl with
  | nil => intro acc; simp
  | cons en t ih =>
    intro acc
    rw [List.foldl_cons]
    cases hr : hf (joinPath bp en.1) with
    | ok h =>
      have hfail : hashFailed bp hf en.1 = false := by
        unfold hashFailed; rw [hr]
      by_cases hc : some h = en.2
      · have hch : hashChanged bp hf en = false := by
          unfold hashChanged; rw [hr]; simp [hc]
        have hstep : validateStep bp hf acc en = acc := by
          unfold validateStep; rw [hr]; simp [hc]
        rw [hstep]
        rcases ih acc with ⟨ihm, ihc⟩
        constructor
        · rw [ihm]; simp [List.filter_cons, hfail]
        · rw [ihc]; simp [List.filter_cons, hch]
      · have hch : hashChanged bp hf en = true := by
          unfold hashChanged; rw [hr]; simp [hc]
        have hstep : validateStep bp hf acc en
            = { acc with changed := acc.changed ++ [en.1] } := by
          unfold validateStep; rw [hr]; simp [hc]
        rw [hstep]
        rcases ih { acc with changed := acc.changed ++ [en.1] } with ⟨ihm, ihc⟩
        constructor
        · rw [ihm]; simp [List.filter_cons, hfail]
        · rw [ihc]; simp [List.filter_cons, hch]
    | error u =>
      have hfail : hashFailed bp hf en.1 = true := by
        unfold hashFailed; rw [hr]
      have hch : hashChanged bp hf en = false := by
        unfold hashChanged; rw [hr]
      have hstep : validateStep bp hf acc en
          = { acc with missing := acc.missing ++ [en.1] } := by
        unfold validateStep; rw [hr]
      rw [hstep]
      rcases ih { acc with missing := acc.missing ++ [en.1] } with ⟨ihm, ihc⟩
      constructor
      · rw [ihm]; simp [List.filter_cons, hfail]
      · rw [ihc]; simp [List.filter_cons, hch]

/-- A name whose hashing failed is never classified as changed. -/
theorem hashFailed_not_hashChanged (bp : String) (hf : String → Except Unit String)
    (name : String) (exp : Option String)
    (h1 : hashFailed bp hf name = true) :
    hashChanged bp hf (name, exp) = false := by
  unfold hashFailed at h1
  unfold hashChanged
  dsimp only
  cases hr : hf (joinPath bp name) with
  | ok h => rw [hr] at h1; simp at h1
  | error u => rfl

/-- Claim C10: validateFiles resolves with empty missing and changed
lists when the hash list file is absent or unreadable; in general a
name is reported missing exactly when it is listed and hashing the
file failed, reported changed exactly when it is listed with a hash
differing from the recorded one, and no name is reported as both. -/
theorem validateFiles_partition (bp : String) (csv : Except Unit String)
    (hf : String → Except Unit String) (name : String) :
    (validateFiles bp (.error ()) hf = ⟨[], []⟩)
    ∧ (name ∈ (validateFiles bp csv hf).missing ↔
        (∃ exp, (name, exp) ∈ fileListOf csv) ∧ hashFailed bp hf name = true)
    ∧ (name ∈ (validateFiles bp csv hf).changed ↔
        ∃ exp, (name, exp) ∈ fileListOf csv ∧ hashChanged bp hf (name, exp) = true)
    ∧ (name ∉ (validateFiles bp csv hf).missing
        ∨ name ∉ (validateFiles bp csv hf).changed) := by
  have hmv : (validateFiles bp csv hf).missing
      = ((fileListOf csv).filter (fun en => hashFailed bp hf en.1)).map
          (fun en => en.1) := by
    have hsp := (validate_foldl_spec bp hf (fileListOf csv) ⟨[], []⟩).1
    unfold validateFiles
    rw [hsp]
    simp
  have hcv : (validateFiles bp csv hf).changed
      = ((fileListOf csv).filter (hashChanged bp hf)).map (fun en => en.1) := by
    have hsp := (validate_foldl_spec bp hf (fileListOf csv) ⟨[], []⟩).2
    unfold validateFiles
    rw [hsp]
    simp
  have hmiff : name ∈ (validateFiles bp csv hf).missing ↔
      (∃ exp, (name, exp) ∈ fileListOf csv) ∧ hashFailed bp hf name = true := by
    rw [hmv]
    constructor
    · intro hmem
      rcases List.mem_map.mp hmem with ⟨⟨n1, n2⟩, henf, heq⟩
      rcases List.mem_filter.mp henf with ⟨hen, hfl⟩
      dsimp at heq hfl
      subst heq
      exact ⟨⟨n2, hen⟩, hfl⟩
    · rintro ⟨⟨exp, hmem⟩, hfl⟩
      exact List.mem_map.mpr ⟨(name, exp), List.mem_filter.mpr ⟨hmem, hfl⟩, rfl⟩
  have hciff : name ∈ (validateFiles bp csv hf).changed ↔
      ∃ exp, (name, exp) ∈ fileListOf csv ∧ hashChanged bp hf (name, exp) = true := by
    rw [hcv]
    constructor
    · intro hmem
      rcases List.mem_map.mp hmem with ⟨⟨n1, n2⟩, henf, heq⟩
      rcases List.mem_filter.mp henf with ⟨hen, hch⟩
      dsimp at heq
      subst heq
      exact ⟨n2, hen, hch⟩
    · rintro ⟨exp, hmem, hch⟩
      exact List.mem_map.mpr ⟨(name, exp), List.mem_filter.mpr ⟨hmem, hch⟩, rfl⟩
  refine ⟨rfl, hmiff, hciff, ?_⟩
  by_cases hfl : hashFailed bp hf name = true
  · right
    intro hmem
    rcases hciff.mp hmem with ⟨exp, _, hch⟩
    rw [hashFailed_not_hashChanged bp hf name exp hfl] at hch
    exact absurd hch (by simp)
  · left
    intro hmem
    exact hfl (hmiff.mp hmem).2
